import Mathlib

/-!
Verification of the user-ledger core of `src/bot.py` (Winner Games telegram
bot).  The bot keeps one SQLite row per user:

  users (user_id INTEGER PRIMARY KEY, username TEXT,
         balance INTEGER DEFAULT 0, last_bonus TEXT DEFAULT NULL)

We embed the table as a function from user ids to optional rows (the
PRIMARY KEY makes at most one row per id), and each database helper of
`bot.py` as a store transformer.  `date.today().isoformat()` is an ambient
input of the program; here it is passed explicitly as the `today` string.
-/

namespace WinnerBot

/-- One row of the `users` table: `username TEXT`, `balance INTEGER`,
`last_bonus TEXT DEFAULT NULL` (an ISO date string or NULL). -/
structure UserAccount where
  username : String
  balance : Int
  last_bonus : Option String
deriving DecidableEq, Repr

/-- The `users` table: at most one row per `user_id` (PRIMARY KEY). -/
abbrev Store := Int → Option UserAccount

/-- The empty database produced by `init_db`. -/
def emptyStore : Store := fun _ => none

/-- Python's `username or ""` on an optional string: `None` becomes `""`
(and `""` stays `""`, which `getD` also yields). -/
def orEmpty (username : Option String) : String := username.getD ""

/-- First statement of `ensure_user`:
`INSERT OR IGNORE INTO users (user_id, username, balance, last_bonus)
VALUES (?, ?, 0, NULL)` — keeps an existing row, else inserts
`(uid, uname, 0, NULL)`. -/
def insert_or_ignore (s : Store) (uid : Int) (uname : String) : Store :=
  fun k => if k = uid then some ((s uid).getD ⟨uname, 0, none⟩) else s k

/-- Second statement of `ensure_user`:
`UPDATE users SET username=? WHERE user_id=?`. -/
def update_username (s : Store) (uid : Int) (uname : String) : Store :=
  fun k => if k = uid then (s k).map (fun a => { a with username := uname }) else s k

/-- `ensure_user(user_id, username)` of bot.py lines 67-76: insert-or-ignore a
fresh row, then unconditionally overwrite `username` with `username or ""`. -/
def ensure_user (s : Store) (uid : Int) (username : Option String) : Store :=
  update_username (insert_or_ignore s uid (orEmpty username)) uid (orEmpty username)

/-- `get_user(user_id)` of bot.py lines 78-86: the row, or `None` when absent. -/
def get_user (s : Store) (uid : Int) : Option UserAccount := s uid

/-- `add_balance(user_id, amount)` of bot.py lines 88-93:
`UPDATE users SET balance = balance + ? WHERE user_id=?` — applies the amount
unconditionally to the matching row; a missing row means no row matches and
the statement is a no-op. -/
def add_balance (s : Store) (uid : Int) (amount : Int) : Store :=
  fun k => if k = uid then (s k).map (fun a => { a with balance := a.balance + amount }) else s k

/-- `set_last_bonus_today(user_id)` of bot.py lines 95-101 with the ambient
`date.today().isoformat()` passed in as `today`:
`UPDATE users SET last_bonus=? WHERE user_id=?`. -/
def set_last_bonus (s : Store) (uid : Int) (today : String) : Store :=
  fun k => if k = uid then (s k).map (fun a => { a with last_bonus := some today }) else s k

/-- Outcome of a bonus claim, mirroring the two messages the `bonus` branch of
`on_button` can send; `claimed` carries the account's resulting balance (the
`add_balance` row after the credit). -/
inductive BonusResult where
  | alreadyClaimed
  | claimed (newBalance : Int)
deriving DecidableEq, Repr

/-- The `bonus` branch of `on_button` (bot.py lines 294-304), as one
sequential operation: read the row, compare `last_bonus` to today, and on a
mismatch run `add_balance` then `set_last_bonus`.  When the row is absent the
Python code raises (`info["last_bonus"]` on `None`) before any mutation, which
we model as `none`; all in-scope callers run `ensure_user` first. -/
def claim_daily_bonus (s : Store) (uid : Int) (reward : Int) (today : String) :
    Option (BonusResult × Store) :=
  match s uid with
  | none => none
  | some info =>
    if info.last_bonus = some today then
      some (.alreadyClaimed, s)
    else
      some (.claimed (info.balance + reward),
            set_last_bonus (add_balance s uid reward) uid today)

/-- A sample store with one account, used by concrete evaluations. -/
def sampleStore : Store :=
  fun k => if k = 1 then some ⟨"alice", 5, none⟩ else none

/-- A sample store with a fresh zero-balance account, as left by `ensure_user`
on an unseen id. -/
def freshStore : Store :=
  fun k => if k = 1 then some ⟨"alice", 0, none⟩ else none

example : (add_balance sampleStore 1 (-3)) 1 = some ⟨"alice", 2, none⟩ := by decide

example : (claim_daily_bonus freshStore 1 5 "2024-01-01").map Prod.fst =
    some (.claimed 5) := by decide

example : ((claim_daily_bonus freshStore 1 5 "2024-01-01").map (fun p => p.2 1)) =
    some (some ⟨"alice", 5, some "2024-01-01"⟩) := by decide

/-- The core's operations as the spec's interface names them, each mapped to
the bot.py code that implements it.  `bonus` uses the literal reward 5 of the
`on_button` call site. -/
inductive Op where
  | ensure (uid : Int) (uname : Option String)
  | get (uid : Int)
  | credit (uid : Int) (amount : Int)
  | bonus (uid : Int) (today : String)

/-- Effect of one operation on the store.  `get_user` reads only; a `bonus`
call on a missing row raises in Python before any write, leaving the store
unchanged. -/
def applyOp (s : Store) : Op → Store
  | .ensure uid n => ensure_user s uid n
  | .get _ => s
  | .credit uid amount => add_balance s uid amount
  | .bonus uid today =>
      match claim_daily_bonus s uid 5 today with
      | none => s
      | some (_, s2) => s2

/-- Whether an operation credits only non-negative amounts. -/
def creditNonneg : Op → Bool
  | .credit _ amount => decide (0 ≤ amount)
  | _ => true

/-!
Step-level model of the `bonus` branch of `on_button`.  The Python code runs
three separate SQLite transactions — `get_user` (read + commit),
`add_balance` (commit), `set_last_bonus_today` (commit) — with no enclosing
transaction, so every intermediate store is durably committed and visible to
other handlers.  A phase records how far one in-flight claim has progressed.
-/

/-- Outcome tag at step level (which of the two messages the handler sends). -/
inductive ClaimOutcome where
  | claimedMsg
  | alreadyClaimedMsg
deriving DecidableEq, Repr

/-- Progress of one in-flight `bonus` handler: not yet read; read and decided
to credit (crediting, then stamping, still pending); or finished. -/
inductive ClaimPhase where
  | toRead
  | toCredit
  | toStamp
  | finished (r : ClaimOutcome)
deriving DecidableEq, Repr

/-- One committed transaction of an in-flight `bonus` handler for `uid` with
reward `reward` on calendar date `today`.  A finished handler (or one whose
read found no row: the Python raises with no write) does not move. -/
def claimStep (uid : Int) (reward : Int) (today : String) :
    ClaimPhase × Store → ClaimPhase × Store
  | (.toRead, s) =>
      match get_user s uid with
      | none => (.toRead, s)
      | some info =>
        if info.last_bonus = some today then (.finished .alreadyClaimedMsg, s)
        else (.toCredit, s)
  | (.toCredit, s) => (.toStamp, add_balance s uid reward)
  | (.toStamp, s) => (.finished .claimedMsg, set_last_bonus s uid today)
  | (.finished r, s) => (.finished r, s)

/-- Two concurrent `bonus` handlers for the same user sharing the store. -/
structure RaceState where
  store : Store
  p1 : ClaimPhase
  p2 : ClaimPhase

/-- One scheduling choice: `true` steps handler 1, `false` steps handler 2.
Each `claimStep` is one SQLite transaction, the unit of interleaving. -/
def raceStep (uid : Int) (reward : Int) (today : String) (st : RaceState) (choice : Bool) :
    RaceState :=
  if choice then
    let next := claimStep uid reward today (st.p1, st.store)
    ⟨next.2, next.1, st.p2⟩
  else
    let next := claimStep uid reward today (st.p2, st.store)
    ⟨next.2, st.p1, next.1⟩

/-- Run both handlers under a schedule (a list of choices). -/
def runRace (uid : Int) (reward : Int) (today : String) (st : RaceState) (sched : List Bool) :
    RaceState :=
  sched.foldl (raceStep uid reward today) st

example : ((runRace 1 5 "2024-01-01" ⟨freshStore, .toRead, .toRead⟩
    [true, false, true, true, false, false]).store 1).map UserAccount.balance = some 10 := by
  decide

/-- An account that already claimed the bonus on 2024-01-01, for witnesses. -/
def claimedStore : Store :=
  fun k => if k = 1 then some ⟨"alice", 7, some "2024-01-01"⟩ else none

/-- Claim C4: when the stored `last_bonus` equals the supplied date, the bonus
claim returns `alreadyClaimed` and the store is returned exactly as it was —
no mutation at all. -/
theorem C4_already_claimed_no_mutation (s : Store) (uid : Int) (a : UserAccount)
    (reward : Int) (D : String) (ha : s uid = some a) (hd : a.last_bonus = some D) :
    claim_daily_bonus s uid reward D = some (.alreadyClaimed, s) := by
  simp [claim_daily_bonus, ha, hd]

/-- Claim C4 witness: a concrete account that claimed on 2024-01-01 gets
`alreadyClaimed` and the identical store back. -/
theorem C4_witness :
    claim_daily_bonus claimedStore 1 5 "2024-01-01" = some (.alreadyClaimed, claimedStore) :=
  C4_already_claimed_no_mutation claimedStore 1 ⟨"alice", 7, some "2024-01-01"⟩ 5 "2024-01-01"
    (by decide) (by decide)

/-- Claim C5: a second `ensure_user` call leaves `balance` and `last_bonus`
exactly as after the first call and only refreshes `username` to the second
value; every other account is untouched. -/
theorem C5_ensure_idempotent (s : Store) (uid : Int) (n1 n2 : String) :
    ∃ a, (ensure_user s uid (some n1)) uid = some a ∧
      ∀ k, (ensure_user (ensure_user s uid (some n1)) uid (some n2)) k =
        if k = uid then some { a with username := n2 } else (ensure_user s uid (some n1)) k := by
  refine ⟨{ (s uid).getD ⟨n1, 0, none⟩ with username := n1 }, ?_, ?_⟩
  · simp [ensure_user, update_username, insert_or_ignore, orEmpty]
  · intro k
    by_cases hk : k = uid
    · subst hk
      simp [ensure_user, update_username, insert_or_ignore, orEmpty]
    · simp [ensure_user, update_username, insert_or_ignore, hk]

/-- Claim C6: crediting an existing account with a non-negative amount sets
the stored balance to exactly old balance + amount, touching no other field. -/
theorem C6_credit_adds_exactly (s : Store) (uid : Int) (a : UserAccount) (amount : Int)
    (ha : s uid = some a) (_hnn : 0 ≤ amount) :
    (add_balance s uid amount) uid = some { a with balance := a.balance + amount } := by
  simp [add_balance, ha]

/-- Claim C6 witness: crediting 7 onto balance 5 yields balance 12. -/
theorem C6_witness :
    (add_balance sampleStore 1 7) 1 = some ⟨"alice", 12, none⟩ ∧ (0 : Int) ≤ 7 :=
  ⟨C6_credit_adds_exactly sampleStore 1 ⟨"alice", 5, none⟩ 7 (by decide) (by decide),
   by decide⟩

/-- Claim C7: when the stored `last_bonus` differs from the supplied date
(including `none`), the claim succeeds: it returns `claimed` with new balance
= old balance + reward, and the resulting store has that balance and
`last_bonus = D` with the username preserved. -/
theorem C7_claim_success (s : Store) (uid : Int) (a : UserAccount) (reward : Int) (D : String)
    (ha : s uid = some a) (hd : a.last_bonus ≠ some D) :
    ∃ s2, claim_daily_bonus s uid reward D = some (.claimed (a.balance + reward), s2) ∧
      s2 uid = some ⟨a.username, a.balance + reward, some D⟩ := by
  refine ⟨set_last_bonus (add_balance s uid reward) uid D, ?_, ?_⟩
  · simp [claim_daily_bonus, ha, hd]
  · simp [set_last_bonus, add_balance, ha]

/-- Claim C7 witness: an account with no prior bonus and balance 5 claims 5 on
2024-01-01 and ends with balance 10 and that date stamped. -/
theorem C7_witness :
    ∃ s2, claim_daily_bonus sampleStore 1 5 "2024-01-01" = some (.claimed 10, s2) ∧
      s2 1 = some ⟨"alice", 10, some "2024-01-01"⟩ :=
  C7_claim_success sampleStore 1 ⟨"alice", 5, none⟩ 5 "2024-01-01" (by decide) (by decide)

/-- Claim C9: `add_balance` on an id with no row leaves the whole store
unchanged (the UPDATE matches no row — there is no NotFound failure), and on
an existing row it changes only that row's balance: every other account, and
the row's username and `last_bonus`, are exactly as before. -/
theorem C9_credit_frame (s : Store) (uid : Int) (amount : Int) :
    (s uid = none → add_balance s uid amount = s) ∧
    (∀ a, s uid = some a → ∀ k,
      (add_balance s uid amount) k =
        if k = uid then some { a with balance := a.balance + amount } else s k) := by
  constructor
  · intro h
    funext k
    by_cases hk : k = uid
    · subst hk; simp [add_balance, h]
    · simp [add_balance, hk]
  · intro a ha k
    by_cases hk : k = uid
    · subst hk; simp [add_balance, ha]
    · simp [add_balance, hk]

/-- Claim C9 witness: crediting absent id 2 returns the very same store;
crediting id 1 changes only its balance and leaves id 2 absent. -/
theorem C9_witness :
    add_balance sampleStore 2 7 = sampleStore ∧
    (add_balance sampleStore 1 7) 1 = some ⟨"alice", 12, none⟩ ∧
    (add_balance sampleStore 1 7) 2 = none := by
  refine ⟨(C9_credit_frame sampleStore 2 7).1 (by decide), ?_, ?_⟩
  · exact ((C9_credit_frame sampleStore 1 7).2 ⟨"alice", 5, none⟩ (by decide) 1).trans (by decide)
  · exact ((C9_credit_frame sampleStore 1 7).2 ⟨"alice", 5, none⟩ (by decide) 2).trans (by decide)

/-- Claim C10: `ensure_user` with an absent (`None`) name stores the empty
string as username — unconditionally overwriting whatever was stored — so a
later absent-name call erases a previously stored name `n` to `""`. -/
theorem C10_absent_name_overwrites (s : Store) (uid : Int) (n : String) :
    ((ensure_user s uid none) uid).map UserAccount.username = some "" ∧
    ((ensure_user (ensure_user s uid (some n)) uid none) uid).map UserAccount.username
      = some "" := by
  constructor <;> simp [ensure_user, update_username, insert_or_ignore, orEmpty]

/-- Claim C5 witness: the two-call scenario on a fresh database with names
Alice then Bob. -/
theorem C5_witness :
    ∃ a, (ensure_user emptyStore 1 (some "Alice")) 1 = some a ∧
      ∀ k, (ensure_user (ensure_user emptyStore 1 (some "Alice")) 1 (some "Bob")) k =
        if k = 1 then some { a with username := "Bob" }
        else (ensure_user emptyStore 1 (some "Alice")) k :=
  C5_ensure_idempotent emptyStore 1 "Alice" "Bob"

/-- Claim C10 witness: storing Alice then calling with an absent name leaves
username empty. -/
theorem C10_witness :
    ((ensure_user emptyStore 1 none) 1).map UserAccount.username = some "" ∧
    ((ensure_user (ensure_user emptyStore 1 (some "Alice")) 1 none) 1).map
      UserAccount.username = some "" :=
  C10_absent_name_overwrites emptyStore 1 "Alice"

/-- Claim C1 counterexample: `add_balance` has no sign check, so crediting
-3 onto a stored balance of 5 changes the balance (to 2) instead of failing
with InvalidAmount and leaving it unchanged. -/
theorem C1_counterexample :
    ((add_balance sampleStore 1 (-3)) 1).map UserAccount.balance ≠
      (sampleStore 1).map UserAccount.balance ∧
    ((add_balance sampleStore 1 (-3)) 1).map UserAccount.balance = some 2 ∧
    (sampleStore 1).map UserAccount.balance = some 5 := by
  decide

/-- Claim C1 as amended: the credit operation validates nothing — a negative
amount is applied like any other, so the stored balance becomes old + amount,
strictly below the old balance; no InvalidAmount failure exists in the code. -/
theorem C1_negative_credit_applied (s : Store) (uid : Int) (a : UserAccount) (amount : Int)
    (ha : s uid = some a) (hneg : amount < 0) :
    (add_balance s uid amount) uid = some { a with balance := a.balance + amount } ∧
    a.balance + amount < a.balance := by
  refine ⟨by simp [add_balance, ha], ?_⟩
  omega

/-- Claim C1 witness: crediting -3 onto balance 5 stores balance 2 < 5. -/
theorem C1_witness :
    (add_balance sampleStore 1 (-3)) 1 = some ⟨"alice", 2, none⟩ ∧ (2 : Int) < 5 := by
  have h := C1_negative_credit_applied sampleStore 1 ⟨"alice", 5, none⟩ (-3) (by decide) (by decide)
  exact ⟨h.1.trans (by decide), by decide⟩

/-- Claim C2 counterexample: the operation sequence consisting of one credit
of -3 drops the balance of account 1 from 5 to 2, so balance is not monotone
over the core's operations as the code implements them. -/
theorem C2_counterexample :
    (([Op.credit 1 (-3)].foldl applyOp sampleStore) 1).map UserAccount.balance = some 2 ∧
    (sampleStore 1).map UserAccount.balance = some 5 ∧
    ¬ ((5 : Int) ≤ 2) := by
  decide

/-- Claim C2 as amended: every account's balance is non-decreasing under each
of `ensure_user`, `get_user`, the bonus claim, and `add_balance` restricted to
non-negative amounts (the restriction the counterexample forces). -/
theorem C2_balance_monotone (s : Store) (op : Op) (hop : creditNonneg op = true)
    (uid : Int) (a : UserAccount) (ha : s uid = some a) :
    ∃ a2, applyOp s op uid = some a2 ∧ a.balance ≤ a2.balance := by
  cases op with
  | ensure uid2 n =>
      by_cases hk : uid = uid2
      · subst hk
        refine ⟨{ a with username := orEmpty n }, ?_, le_refl _⟩
        simp [applyOp, ensure_user, update_username, insert_or_ignore, ha]
      · exact ⟨a, by simp [applyOp, ensure_user, update_username, insert_or_ignore, hk, ha],
          le_refl _⟩
  | get uid2 => exact ⟨a, ha, le_refl _⟩
  | credit uid2 amount =>
      have hamt : (0 : Int) ≤ amount := of_decide_eq_true hop
      by_cases hk : uid = uid2
      · subst hk
        exact ⟨{ a with balance := a.balance + amount },
          by simp [applyOp, add_balance, ha],
          by show a.balance ≤ a.balance + amount; omega⟩
      · exact ⟨a, by simp [applyOp, add_balance, hk, ha], le_refl _⟩
  | bonus uid2 today =>
      rcases hs : s uid2 with _ | info
      · refine ⟨a, ?_, le_refl _⟩
        simp [applyOp, claim_daily_bonus, hs, ha]
      · by_cases hb : info.last_bonus = some today
        · refine ⟨a, ?_, le_refl _⟩
          simp [applyOp, claim_daily_bonus, hs, hb, ha]
        · by_cases hk : uid = uid2
          · subst hk
            have hin : info = a := by rw [hs] at ha; exact (Option.some_inj.mp ha)
            subst hin
            refine ⟨⟨info.username, info.balance + 5, some today⟩, ?_,
              by show info.balance ≤ info.balance + 5; omega⟩
            simp [applyOp, claim_daily_bonus, hs, hb, set_last_bonus, add_balance]
          · refine ⟨a, ?_, le_refl _⟩
            simp [applyOp, claim_daily_bonus, hs, hb, set_last_bonus, add_balance, hk, ha]

/-- Claim C2 witness: a non-negative credit of 7 on balance 5 keeps the
balance at least 5. -/
theorem C2_witness :
    ∃ a2, applyOp sampleStore (Op.credit 1 7) 1 = some a2 ∧
      (⟨"alice", 5, none⟩ : UserAccount).balance ≤ a2.balance :=
  C2_balance_monotone sampleStore (Op.credit 1 7) (by decide) 1 ⟨"alice", 5, none⟩ (by decide)

/-- Claim C3: the bonus claim is NOT atomic.  After the first two committed
transactions of a single in-flight claim (the read and the `add_balance`),
the durably committed store shows the balance already credited (0 → 5) while
`last_bonus` is still unset — exactly one of the two effects applied, with the
date stamp still pending in a third, separate transaction. -/
theorem C3_partial_commit :
    (claimStep 1 5 "2024-01-01" (claimStep 1 5 "2024-01-01" (.toRead, freshStore))).1
      = .toStamp ∧
    (claimStep 1 5 "2024-01-01" (claimStep 1 5 "2024-01-01" (.toRead, freshStore))).2 1
      = some ⟨"alice", 5, none⟩ ∧
    freshStore 1 = some ⟨"alice", 0, none⟩ := by
  decide

/-- Claim C8: two concurrent bonus claims for user 1 on the same date, under
the schedule read/read/credit/stamp/credit/stamp, BOTH finish with the
`claimed` outcome and the final balance is 10 — two rewards credited instead
of the one `Claimed` plus one `AlreadyClaimed` the claim requires. -/
theorem C8_race_double_claim :
    (runRace 1 5 "2024-01-01" ⟨freshStore, .toRead, .toRead⟩
        [true, false, true, true, false, false]).p1 = .finished .claimedMsg ∧
    (runRace 1 5 "2024-01-01" ⟨freshStore, .toRead, .toRead⟩
        [true, false, true, true, false, false]).p2 = .finished .claimedMsg ∧
    ((runRace 1 5 "2024-01-01" ⟨freshStore, .toRead, .toRead⟩
        [true, false, true, true, false, false]).store 1).map UserAccount.balance = some 10 ∧
    (freshStore 1).map UserAccount.balance = some 0 := by
  decide

end WinnerBot
